import Mathlib

/-!
# SAE J1850 VPW / J1979 reader: protocol constants and tables

A shallow embedding of the two protocol headers of the OBD II reader,
`j1850_vpw.h` (timer constants, symbol identifiers, nominal symbol lengths,
the global message buffer) and `j1979_lcd_defs.h` (LCD texts, the `menuitems`
table, the J1979 message templates and the LCD state enumeration), followed by
the properties of these tables.

Conventions of the embedding:
* a `#define` of an integer is a `Nat` definition with the same name;
* a C `enum` is an inductive type whose constructors keep the enumerator
  names, with a `toNat` function giving the value C assigns (0, 1, 2, ...);
* a `prog_char` array is the list of its bytes (bit patterns, 0..255);
  a table of pointers is the list of the objects pointed to;
* `unsigned int` arithmetic is `Nat` arithmetic reduced modulo `2 ^ w`.
-/

namespace J1850

/-! ## j1850_vpw.h, section 1: common definitions -/

/-- Maximum number of symbols of a message (j1850_vpw.h line 37); the comment
above it reads `BRK + IFS + SOF + DATA (12 * 8 bits) + CRC + IFS`. -/
def J1850_MAX_MSG_SYMBOL_COUNT : Nat := 108

/-- Timer prescaler (j1850_vpw.h line 62). -/
def J1850_VPW_TIMER_PRESCALER : Nat := 64

/-- Length of one timer tick in microseconds (j1850_vpw.h line 63). -/
def J1850_VPW_TIMER_CTC_IN_US : Nat := 64

/-- Shift converting microseconds to timer ticks (j1850_vpw.h line 64). -/
def J1850_VPW_TIMER_CTC_SHIFT_VAL : Nat := 6

/-- Shift used by the receive timer (j1850_vpw.h line 65). -/
def J1850_VPW_TIMER_RX_SHIFT_VAL : Nat := 2

/-- Number of elements of the global buffer `static char obd2_message[ 12 ]`
(j1850_vpw.h line 82). -/
def obd2_message_size : Nat := 12

/-! ## j1850_vpw.h, section 2.4: symbols and nominal lengths -/

/-- The symbol identifiers (j1850_vpw.h lines 138-148). -/
inductive J1850_SYMBOL_ID where
  | J1850_BIT_ZERO_SYMBOL
  | J1850_BIT_ONE_SYMBOL
  | J1850_SOF_SYMBOL
  | J1850_EOD_SYMBOL
  | J1850_EOF_SYMBOL
  | J1850_IFS_SYMBOL
  | J1850_BRK_SYMBOL
  | J1850_INVALID_SYMBOL
  deriving DecidableEq, Repr

open J1850_SYMBOL_ID

/-- The integer value C gives each enumerator of `J1850_SYMBOL_ID`. -/
def J1850_SYMBOL_ID.toNat : J1850_SYMBOL_ID → Nat
  | J1850_BIT_ZERO_SYMBOL => 0
  | J1850_BIT_ONE_SYMBOL => 1
  | J1850_SOF_SYMBOL => 2
  | J1850_EOD_SYMBOL => 3
  | J1850_EOF_SYMBOL => 4
  | J1850_IFS_SYMBOL => 5
  | J1850_BRK_SYMBOL => 6
  | J1850_INVALID_SYMBOL => 7

def J1850_BIT_ZERO_LOW_LEN : Nat := 64
def J1850_BIT_ZERO_HIGH_LEN : Nat := 128
def J1850_BIT_ONE_LOW_LEN : Nat := 128
def J1850_BIT_ONE_HIGH_LEN : Nat := 64
def J1850_IFS_LEN : Nat := 300
def J1850_SOF_LEN : Nat := 200
def J1850_EOF_LEN : Nat := 280
def J1850_EOD_LEN : Nat := 200
def J1850_BRK_LEN : Nat := 300

/-- The seven valid symbols, in the order of the enumeration. -/
def valid_symbols : List J1850_SYMBOL_ID :=
  [J1850_BIT_ZERO_SYMBOL, J1850_BIT_ONE_SYMBOL, J1850_SOF_SYMBOL, J1850_EOD_SYMBOL,
   J1850_EOF_SYMBOL, J1850_IFS_SYMBOL, J1850_BRK_SYMBOL]

/-- The nominal lengths of j1850_vpw.h (lines 150-158) read as a map from the
symbol to its length in microseconds. A bit symbol has two entries, `_LOW_LEN`
and `_HIGH_LEN`, and `is_high` selects between them; a control symbol has the
single entry `_LEN`, for which `is_high` is not consulted.
`J1850_INVALID_SYMBOL` has no entry. -/
def j1850_symbol_len (s : J1850_SYMBOL_ID) (is_high : Bool) : Option Nat :=
  match s with
  | J1850_BIT_ZERO_SYMBOL =>
      some (if is_high then J1850_BIT_ZERO_HIGH_LEN else J1850_BIT_ZERO_LOW_LEN)
  | J1850_BIT_ONE_SYMBOL =>
      some (if is_high then J1850_BIT_ONE_HIGH_LEN else J1850_BIT_ONE_LOW_LEN)
  | J1850_SOF_SYMBOL => some J1850_SOF_LEN
  | J1850_EOD_SYMBOL => some J1850_EOD_LEN
  | J1850_EOF_SYMBOL => some J1850_EOF_LEN
  | J1850_IFS_SYMBOL => some J1850_IFS_LEN
  | J1850_BRK_SYMBOL => some J1850_BRK_LEN
  | J1850_INVALID_SYMBOL => none

/-- The C expression `d >> J1850_VPW_TIMER_CTC_SHIFT_VAL` on an unsigned
duration: microseconds to whole timer ticks. -/
def us_to_ticks (d : Nat) : Nat := d >>> J1850_VPW_TIMER_CTC_SHIFT_VAL

/-- The C expression `t << J1850_VPW_TIMER_CTC_SHIFT_VAL` on an unsigned value
of `w` bits: timer ticks back to microseconds, reduced modulo `2 ^ w`. -/
def ticks_to_us (w t : Nat) : Nat := (t <<< J1850_VPW_TIMER_CTC_SHIFT_VAL) % 2 ^ w

/-! ## Nominal timing and nearest-match classification of a measured pulse -/

/-- Modelled from the spec: the pin level of a control symbol, which
j1850_vpw.h does not record (it gives each control symbol a bare length). The
spec makes SOF an active pulse (sections 3 and 6, "SOF 200 (active)") and IFS
the idle gap after bus activity (section 4.4); EOD and EOF are likewise idle,
passive, periods that end the data and the frame, and BRK is an active pulse,
as in SAE J1850 VPW, the protocol the spec and the header implement. `true`
is the active (high) level. A bit symbol is sent at either level and
`J1850_INVALID_SYMBOL` at none: both give `none`. -/
def j1850_symbol_is_high : J1850_SYMBOL_ID → Option Bool
  | J1850_BIT_ZERO_SYMBOL => none
  | J1850_BIT_ONE_SYMBOL => none
  | J1850_SOF_SYMBOL => some true
  | J1850_EOD_SYMBOL => some false
  | J1850_EOF_SYMBOL => some false
  | J1850_IFS_SYMBOL => some false
  | J1850_BRK_SYMBOL => some true
  | J1850_INVALID_SYMBOL => none

/-- The nominal timing of a symbol: its nominal length at pin level `is_high`,
`none` when the symbol has no pulse at that level. A bit symbol has its
`_HIGH_LEN` at the active and its `_LOW_LEN` at the passive level; a control
symbol has its `_LEN` at its own level only. The pair of the two entries,
`(j1850_symbol_timing s true, j1850_symbol_timing s false)`, is the
(active, passive) timing pair of `s`. -/
def j1850_symbol_timing (s : J1850_SYMBOL_ID) (is_high : Bool) : Option Nat :=
  match j1850_symbol_is_high s with
  | some lv => if lv = is_high then j1850_symbol_len s is_high else none
  | none => j1850_symbol_len s is_high

/-- Absolute difference of two durations. -/
def abs_diff (a b : Nat) : Nat := if a ≤ b then b - a else a - b

/-- Modelled from the spec: no receive code is part of the two headers, so the
test whether symbol `s` is THE nearest match for a measured duration of `d`
microseconds at pin level `is_high` follows the words of the specification,
"classified into a symbol by nearest-match against these nominal [values]
within a tolerance window" (section 3) and "a measured duration nearer to one
symbol's nominal value than any other's ... is accepted; ties or measurements
outside all bands yield INVALID" (section 4.3): `s` has a nominal timing at
this level within `tol` of `d`, and that timing is strictly nearer to `d` than
the timing of every other valid symbol at this level. The width `tol` of the
tolerance window is not given by the spec and is a parameter. -/
def j1850_is_nearest (tol : Nat) (is_high : Bool) (d : Nat) (s : J1850_SYMBOL_ID) : Bool :=
  match j1850_symbol_timing s is_high with
  | none => false
  | some n =>
      decide (abs_diff n d ≤ tol) &&
      valid_symbols.all fun t =>
        t == s ||
        match j1850_symbol_timing t is_high with
        | none => true
        | some m => decide (abs_diff n d < abs_diff m d)

/-- Modelled from the spec: the receive classification of one measured
duration, absent from the two headers. The duration decodes to the valid
symbol that is its nearest match at the measured pin level, and to
`J1850_INVALID_SYMBOL` when there is none (a tie, or a duration outside every
tolerance window). -/
def j1850_decode_symbol (tol : Nat) (is_high : Bool) (d : Nat) : J1850_SYMBOL_ID :=
  match valid_symbols.filter (j1850_is_nearest tol is_high d) with
  | s :: _ => s
  | [] => J1850_INVALID_SYMBOL

/-- Two symbols with the same nominal timing: the same entry at the active and
at the passive level. -/
def same_nominal_timing (s t : J1850_SYMBOL_ID) : Prop :=
  ∀ lv : Bool, j1850_symbol_timing s lv = j1850_symbol_timing t lv

instance (s t : J1850_SYMBOL_ID) : Decidable (same_nominal_timing s t) :=
  inferInstanceAs (Decidable (∀ lv : Bool, j1850_symbol_timing s lv = j1850_symbol_timing t lv))

/-! ## j1979_lcd_defs.h, section 1: LCD texts -/

def lcd_menuitem_wait : String := "Please wait...                  "
def lcd_menuitem_dtc : String := "Main menu    1/3Read DTCs       "
def lcd_menuitem_dtc1 : String := "DTC 1/  - code: "
def lcd_menuitem_dtc2 : String := "DTC 2/  - code: "
def lcd_menuitem_dtc3 : String := "DTC 3/  - code: "
def lcd_menuitem_cleardtc : String := "Main menu    2/3Clear DTCs      "
def lcd_menuitem_pid : String := "Main menu    3/3Read PIDs       "
def lcd_menuitem_pid1 : String := "PID1 - Lambda 1:"
def lcd_menuitem_pid2 : String := "PID2 - Lambda 2:"
def lcd_menuitem_pid3 : String := "PID3 - Coolant: "
def lcd_menuitem_pid4 : String := "PID4 - Throttle:"
def lcd_menuitem_pid5 : String := "PID5 - RPM:     "
def lcd_menuitem_dtcs_cleared : String := "DTCs cleared!                   "
def lcd_menuitem_error : String := "Error!                          "
def lcd_menuitem_empty_string : String := "                                "
def lcd_menuitem_no_dtcs : String := "No DTCs found.                  "

/-- The table `menuitems` (j1979_lcd_defs.h lines 57-75). The comment above it
reads: "NOTE: Order in the list matches the order of LCD_STATES, do not change
the order nor numbering". -/
def menuitems : List String :=
  [lcd_menuitem_wait,
   lcd_menuitem_dtc,
   lcd_menuitem_dtc1,
   lcd_menuitem_dtc2,
   lcd_menuitem_dtc3,
   lcd_menuitem_cleardtc,
   lcd_menuitem_pid,
   lcd_menuitem_pid1,
   lcd_menuitem_pid2,
   lcd_menuitem_pid3,
   lcd_menuitem_pid4,
   lcd_menuitem_pid5,
   lcd_menuitem_dtcs_cleared,
   lcd_menuitem_error,
   lcd_menuitem_empty_string,
   lcd_menuitem_no_dtcs]

/-! ## j1979_lcd_defs.h, section 2: J1979 message templates -/

def j1979_message_nbr_dtc : List Nat := [0x68, 0x6A, 0xF1, 0x01, 0x01]
def j1979_message_read_dtc : List Nat := [0x68, 0x6A, 0xF1, 0x03]
def j1979_message_clear_dtc : List Nat := [0x68, 0x6A, 0xF1, 0x04]
def j1979_message_read_pid1 : List Nat := [0x68, 0x6A, 0xF1, 0x01, 0x24]
def j1979_message_read_pid2 : List Nat := [0x68, 0x6A, 0xF1, 0x01, 0x28]
def j1979_message_read_pid3 : List Nat := [0x68, 0x6A, 0xF1, 0x01, 0x05]
def j1979_message_read_pid4 : List Nat := [0x68, 0x6A, 0xF1, 0x01, 0x11]
def j1979_message_read_pid5 : List Nat := [0x68, 0x6A, 0xF1, 0x01, 0x0C]
def j1979_message_nbr_dtc_resp : List Nat :=
  [0x48, 0x6B, 0x00, 0x41, 0x01, 0x00, 0x00, 0x00, 0x00, 0x00, 0x00, 0x00]
def j1979_message_read_dtc_resp : List Nat :=
  [0x48, 0x6B, 0x00, 0x43, 0x00, 0x00, 0x00, 0x00, 0x00, 0x00, 0x00, 0x00]
def j1979_message_clear_dtc_resp : List Nat :=
  [0x48, 0x6B, 0x00, 0x44, 0x00, 0x00, 0x00, 0x00, 0x00, 0x00, 0x00, 0x00]
def j1979_message_read_pid_resp : List Nat :=
  [0x48, 0x6B, 0x00, 0x41, 0x00, 0x00, 0x00, 0x00, 0x00, 0x00, 0x00, 0x00]

/-- The table `j1979_messages` (j1979_lcd_defs.h lines 233-247). -/
def j1979_messages : List (List Nat) :=
  [j1979_message_nbr_dtc,
   j1979_message_read_dtc,
   j1979_message_clear_dtc,
   j1979_message_read_pid1,
   j1979_message_read_pid2,
   j1979_message_read_pid3,
   j1979_message_read_pid4,
   j1979_message_read_pid5,
   j1979_message_nbr_dtc_resp,
   j1979_message_read_dtc_resp,
   j1979_message_clear_dtc_resp,
   j1979_message_read_pid_resp]

/-- The request templates: what `j1979_messages` lists before the first
response template. -/
def j1979_request_templates : List (List Nat) := j1979_messages.take 8

/-- The response templates: the last four entries of `j1979_messages`. -/
def j1979_response_templates : List (List Nat) := j1979_messages.drop 8

/-! ## j1979_lcd_defs.h, section 3.1: LCD states -/

/-- The LCD state enumeration (j1979_lcd_defs.h lines 259-275). -/
inductive LCD_STATE where
  | LCD_INVALID_STATE
  | LCD_DTC_STATE
  | LCD_DTC1_STATE
  | LCD_DTC2_STATE
  | LCD_DTC3_STATE
  | LCD_DTC4_STATE
  | LCD_DTC5_STATE
  | LCD_CLEAR_DTC_STATE
  | LCD_PID_STATE
  | LCD_PID1_STATE
  | LCD_PID2_STATE
  | LCD_PID3_STATE
  | LCD_PID4_STATE
  | LCD_PID5_STATE
  deriving DecidableEq, Repr

open LCD_STATE

/-- The integer value C gives each enumerator of `LCD_STATE`. -/
def LCD_STATE.toNat : LCD_STATE → Nat
  | LCD_INVALID_STATE => 0
  | LCD_DTC_STATE => 1
  | LCD_DTC1_STATE => 2
  | LCD_DTC2_STATE => 3
  | LCD_DTC3_STATE => 4
  | LCD_DTC4_STATE => 5
  | LCD_DTC5_STATE => 6
  | LCD_CLEAR_DTC_STATE => 7
  | LCD_PID_STATE => 8
  | LCD_PID1_STATE => 9
  | LCD_PID2_STATE => 10
  | LCD_PID3_STATE => 11
  | LCD_PID4_STATE => 12
  | LCD_PID5_STATE => 13

/-- The C expression `menuitems[ s ]` for an LCD state `s`; `none` stands for
an index outside the table. -/
def menuitems_at (s : LCD_STATE) : Option String := menuitems[s.toNat]?

/-! ## Theorems: j1850_vpw.h -/

/-- C1: the nominal lengths of the five control symbols are SOF = 200,
EOD = 200, EOF = 280, IFS = 300 and BRK = 300 microseconds, both as constants
and as entries of the length map `j1850_symbol_len`, whatever its level
argument. -/
theorem control_symbol_lengths :
    J1850_SOF_LEN = 200 ∧ J1850_EOD_LEN = 200 ∧ J1850_EOF_LEN = 280 ∧
    J1850_IFS_LEN = 300 ∧ J1850_BRK_LEN = 300 ∧
    ∀ lv : Bool,
      j1850_symbol_len J1850_SOF_SYMBOL lv = some 200 ∧
      j1850_symbol_len J1850_EOD_SYMBOL lv = some 200 ∧
      j1850_symbol_len J1850_EOF_SYMBOL lv = some 280 ∧
      j1850_symbol_len J1850_IFS_SYMBOL lv = some 300 ∧
      j1850_symbol_len J1850_BRK_SYMBOL lv = some 300 := by
  decide

/-- C2, as stated, fails: the claim gives the high (active) phase of BIT_ZERO
64 microseconds and its low (passive) phase 128, and BIT_ONE the reverse; the
header has `J1850_BIT_ZERO_HIGH_LEN = 128` and `J1850_BIT_ZERO_LOW_LEN = 64`,
`J1850_BIT_ONE_HIGH_LEN = 64` and `J1850_BIT_ONE_LOW_LEN = 128`, so none of the
four claimed equalities holds. -/
theorem bit_lengths_claim_fails :
    ¬ (J1850_BIT_ZERO_HIGH_LEN = 64 ∧ J1850_BIT_ZERO_LOW_LEN = 128 ∧
       J1850_BIT_ONE_HIGH_LEN = 128 ∧ J1850_BIT_ONE_LOW_LEN = 64) ∧
    J1850_BIT_ZERO_HIGH_LEN ≠ 64 ∧ J1850_BIT_ZERO_LOW_LEN ≠ 128 ∧
    J1850_BIT_ONE_HIGH_LEN ≠ 128 ∧ J1850_BIT_ONE_LOW_LEN ≠ 64 := by
  decide

/-- C2, amended: BIT_ZERO has a nominal high (active) length of 128
microseconds and a low (passive) length of 64; BIT_ONE has a nominal high
(active) length of 64 and a low (passive) length of 128. The table returns
these values for the two pin levels. -/
theorem bit_lengths :
    J1850_BIT_ZERO_HIGH_LEN = 128 ∧ J1850_BIT_ZERO_LOW_LEN = 64 ∧
    J1850_BIT_ONE_HIGH_LEN = 64 ∧ J1850_BIT_ONE_LOW_LEN = 128 ∧
    j1850_symbol_len J1850_BIT_ZERO_SYMBOL true = some 128 ∧
    j1850_symbol_len J1850_BIT_ZERO_SYMBOL false = some 64 ∧
    j1850_symbol_len J1850_BIT_ONE_SYMBOL true = some 64 ∧
    j1850_symbol_len J1850_BIT_ONE_SYMBOL false = some 128 := by
  decide

/-- C7: `J1850_MAX_MSG_SYMBOL_COUNT` is the sum its comment documents: one BRK,
one IFS, one SOF, eight bit symbols for each of the 12 message bytes, eight
bit symbols for the CRC byte and one trailing IFS; that is 108. -/
theorem max_msg_symbol_count_is_documented_sum :
    J1850_MAX_MSG_SYMBOL_COUNT = 1 + 1 + 1 + obd2_message_size * 8 + 8 + 1 ∧
    J1850_MAX_MSG_SYMBOL_COUNT = 108 ∧ obd2_message_size = 12 := by
  decide

/-- C8: the timer constants agree, `J1850_VPW_TIMER_CTC_IN_US =
J1850_VPW_TIMER_PRESCALER = 64 = 2 ^ J1850_VPW_TIMER_CTC_SHIFT_VAL`, and for
every unsigned duration `d` of `w` bits the shift `d >> 6` is
`floor (d / 64)`, while the rounded duration `(d >> 6) << 6` (computed in `w`
bits) is at most `d` and less than one 64 microsecond tick below it. -/
theorem timer_granularity_consistent (w d : Nat) (hd : d < 2 ^ w) :
    J1850_VPW_TIMER_CTC_IN_US = J1850_VPW_TIMER_PRESCALER ∧
    J1850_VPW_TIMER_PRESCALER = 64 ∧
    64 = 2 ^ J1850_VPW_TIMER_CTC_SHIFT_VAL ∧
    us_to_ticks d = d / J1850_VPW_TIMER_CTC_IN_US ∧
    ticks_to_us w (us_to_ticks d) ≤ d ∧
    d - ticks_to_us w (us_to_ticks d) < J1850_VPW_TIMER_CTC_IN_US := by
  have hshr : d >>> 6 = d / 64 := by
    rw [Nat.shiftRight_eq_div_pow]
  have hshl : (d / 64) <<< 6 = d / 64 * 64 := by
    rw [Nat.shiftLeft_eq]
  have hle : d / 64 * 64 ≤ d := Nat.div_mul_le_self d 64
  have hmod : (d / 64 * 64) % 2 ^ w = d / 64 * 64 :=
    Nat.mod_eq_of_lt (lt_of_le_of_lt hle hd)
  simp only [J1850_VPW_TIMER_CTC_IN_US, J1850_VPW_TIMER_PRESCALER,
    J1850_VPW_TIMER_CTC_SHIFT_VAL, us_to_ticks, ticks_to_us, hshr, hshl, hmod]
  refine ⟨trivial, trivial, by norm_num, trivial, hle, ?_⟩
  omega

/-- Witness for C8 at a 16 bit `unsigned int` and the IFS length 300. -/
theorem timer_granularity_consistent_witness :
    (300 : Nat) < 2 ^ 16 ∧ us_to_ticks 300 = 300 / J1850_VPW_TIMER_CTC_IN_US ∧
    ticks_to_us 16 (us_to_ticks 300) ≤ 300 ∧
    300 - ticks_to_us 16 (us_to_ticks 300) < J1850_VPW_TIMER_CTC_IN_US :=
  have h := timer_granularity_consistent 16 300 (by norm_num)
  ⟨by norm_num, h.2.2.2.1, h.2.2.2.2.1, h.2.2.2.2.2⟩

/-- C9: shifting each nominal length right by `J1850_VPW_TIMER_CTC_SHIFT_VAL`
gives 1 tick for 64, 2 for 128, 3 for 200 (SOF, EOD) and 4 for both 280 (EOF)
and 300 (IFS, BRK); among the nominal lengths only the bit lengths 64 and 128
are whole multiples of a tick; EOF, whose length differs from that of IFS and
BRK, has the same tick count as both. -/
theorem nominal_lengths_in_ticks :
    (us_to_ticks 64 = 1 ∧ us_to_ticks 128 = 2 ∧ us_to_ticks 200 = 3 ∧
     us_to_ticks 280 = 4 ∧ us_to_ticks 300 = 4) ∧
    (us_to_ticks J1850_BIT_ZERO_LOW_LEN = 1 ∧ us_to_ticks J1850_BIT_ZERO_HIGH_LEN = 2 ∧
     us_to_ticks J1850_BIT_ONE_LOW_LEN = 2 ∧ us_to_ticks J1850_BIT_ONE_HIGH_LEN = 1 ∧
     us_to_ticks J1850_SOF_LEN = 3 ∧ us_to_ticks J1850_EOD_LEN = 3 ∧
     us_to_ticks J1850_EOF_LEN = 4 ∧ us_to_ticks J1850_IFS_LEN = 4 ∧
     us_to_ticks J1850_BRK_LEN = 4) ∧
    (J1850_BIT_ZERO_LOW_LEN % J1850_VPW_TIMER_CTC_IN_US = 0 ∧
     J1850_BIT_ZERO_HIGH_LEN % J1850_VPW_TIMER_CTC_IN_US = 0 ∧
     J1850_BIT_ONE_LOW_LEN % J1850_VPW_TIMER_CTC_IN_US = 0 ∧
     J1850_BIT_ONE_HIGH_LEN % J1850_VPW_TIMER_CTC_IN_US = 0 ∧
     J1850_SOF_LEN % J1850_VPW_TIMER_CTC_IN_US ≠ 0 ∧
     J1850_EOD_LEN % J1850_VPW_TIMER_CTC_IN_US ≠ 0 ∧
     J1850_EOF_LEN % J1850_VPW_TIMER_CTC_IN_US ≠ 0 ∧
     J1850_IFS_LEN % J1850_VPW_TIMER_CTC_IN_US ≠ 0 ∧
     J1850_BRK_LEN % J1850_VPW_TIMER_CTC_IN_US ≠ 0) ∧
    (us_to_ticks J1850_EOF_LEN = us_to_ticks J1850_IFS_LEN ∧
     us_to_ticks J1850_EOF_LEN = us_to_ticks J1850_BRK_LEN ∧
     J1850_EOF_LEN ≠ J1850_IFS_LEN ∧ J1850_EOF_LEN ≠ J1850_BRK_LEN) := by
  decide

/-! ## Theorems: nominal timing and nearest-match decoding -/

/-- Unfolding of the nearest-match decoder. -/
theorem j1850_decode_symbol_def (tol : Nat) (is_high : Bool) (d : Nat) :
    j1850_decode_symbol tol is_high d =
      match valid_symbols.filter (j1850_is_nearest tol is_high d) with
      | s :: _ => s
      | [] => J1850_INVALID_SYMBOL := rfl

/-- The nominal timings, written out: the (active, passive) pair of each
valid symbol. -/
theorem j1850_symbol_timing_table :
    valid_symbols.map (fun s => (j1850_symbol_timing s true, j1850_symbol_timing s false)) =
      [(some 128, some 64), (some 64, some 128), (some 200, none), (none, some 200),
       (none, some 280), (none, some 300), (some 300, none)] := by
  decide

/-- Decoding at the active level, for every width of the tolerance window:
64 is BIT_ONE, 128 is BIT_ZERO, 200 is SOF and 300 is BRK. -/
theorem decode_nominal_active (tol : Nat) :
    j1850_decode_symbol tol true 64 = J1850_BIT_ONE_SYMBOL ∧
    j1850_decode_symbol tol true 128 = J1850_BIT_ZERO_SYMBOL ∧
    j1850_decode_symbol tol true 200 = J1850_SOF_SYMBOL ∧
    j1850_decode_symbol tol true 300 = J1850_BRK_SYMBOL := by
  simp +decide [j1850_decode_symbol_def, valid_symbols, j1850_is_nearest,
    j1850_symbol_timing, j1850_symbol_is_high, j1850_symbol_len, abs_diff,
    J1850_BIT_ZERO_LOW_LEN, J1850_BIT_ZERO_HIGH_LEN, J1850_BIT_ONE_LOW_LEN,
    J1850_BIT_ONE_HIGH_LEN, J1850_SOF_LEN, J1850_EOD_LEN, J1850_EOF_LEN,
    J1850_IFS_LEN, J1850_BRK_LEN]

/-- Decoding at the passive level, for every width of the tolerance window:
64 is BIT_ZERO, 128 is BIT_ONE, 200 is EOD, 280 is EOF and 300 is IFS. -/
theorem decode_nominal_passive (tol : Nat) :
    j1850_decode_symbol tol false 64 = J1850_BIT_ZERO_SYMBOL ∧
    j1850_decode_symbol tol false 128 = J1850_BIT_ONE_SYMBOL ∧
    j1850_decode_symbol tol false 200 = J1850_EOD_SYMBOL ∧
    j1850_decode_symbol tol false 280 = J1850_EOF_SYMBOL ∧
    j1850_decode_symbol tol false 300 = J1850_IFS_SYMBOL := by
  simp +decide [j1850_decode_symbol_def, valid_symbols, j1850_is_nearest,
    j1850_symbol_timing, j1850_symbol_is_high, j1850_symbol_len, abs_diff,
    J1850_BIT_ZERO_LOW_LEN, J1850_BIT_ZERO_HIGH_LEN, J1850_BIT_ONE_LOW_LEN,
    J1850_BIT_ONE_HIGH_LEN, J1850_SOF_LEN, J1850_EOD_LEN, J1850_EOF_LEN,
    J1850_IFS_LEN, J1850_BRK_LEN]

/-- C3: every valid symbol has a nominal timing, and for every valid symbol
`s`, every pin level at which `s` has a nominal length `n` and every width of
the tolerance window, decoding `n` at that level by nearest match against the
same table yields `s` again, so it yields neither another symbol nor
`J1850_INVALID_SYMBOL`; and the map from the valid symbols to their nominal
timings is injective: two valid symbols with the same timing at both levels
are equal. -/
theorem nominal_roundtrip :
    (∀ s ∈ valid_symbols,
      j1850_symbol_timing s true ≠ none ∨ j1850_symbol_timing s false ≠ none) ∧
    (∀ s ∈ valid_symbols, ∀ (tol : Nat) (lv : Bool) (n : Nat),
      j1850_symbol_timing s lv = some n →
        j1850_decode_symbol tol lv n = s ∧
        j1850_decode_symbol tol lv n ≠ J1850_INVALID_SYMBOL) ∧
    (∀ s ∈ valid_symbols, ∀ t ∈ valid_symbols, same_nominal_timing s t → s = t) := by
  refine ⟨by decide, ?_, by decide⟩
  intro s hs tol lv n hn
  have ha := decode_nominal_active tol
  have hp := decode_nominal_passive tol
  have key : j1850_decode_symbol tol lv n = s := by
    simp only [valid_symbols, List.mem_cons, List.mem_singleton, List.not_mem_nil,
      or_false] at hs
    rcases hs with h | h | h | h | h | h | h <;> subst h <;> cases lv <;>
      simp [j1850_symbol_timing, j1850_symbol_is_high, j1850_symbol_len,
        J1850_BIT_ZERO_LOW_LEN, J1850_BIT_ZERO_HIGH_LEN, J1850_BIT_ONE_LOW_LEN,
        J1850_BIT_ONE_HIGH_LEN, J1850_SOF_LEN, J1850_EOD_LEN, J1850_EOF_LEN,
        J1850_IFS_LEN, J1850_BRK_LEN] at hn <;>
      subst hn <;> simp [ha, hp]
  refine ⟨key, ?_⟩
  rw [key]
  intro h
  subst h
  exact absurd hs (by decide)

/-- Witness for C3: SOF has the nominal timing 200 at the active level, and a
pulse of 200 microseconds at that level decodes to SOF with a tolerance of one
64 microsecond tick. -/
theorem nominal_roundtrip_witness :
    J1850_SOF_SYMBOL ∈ valid_symbols ∧
    j1850_symbol_timing J1850_SOF_SYMBOL true = some 200 ∧
    j1850_decode_symbol 64 true 200 = J1850_SOF_SYMBOL :=
  have hs : J1850_SOF_SYMBOL ∈ valid_symbols := by decide
  have hn : j1850_symbol_timing J1850_SOF_SYMBOL true = some 200 := by decide
  ⟨hs, hn, (nominal_roundtrip.2.1 J1850_SOF_SYMBOL hs 64 true 200 hn).1⟩

/-! ## Theorems: j1979_lcd_defs.h -/

/-- C4: `j1979_messages` lists 12 templates; every one of them is at least 4
bytes long (three header bytes and a service id) and at most 12 bytes long, so
every valid index into a template is a valid index into the 12 byte buffer
`obd2_message`. -/
theorem templates_fit_message_buffer :
    j1979_messages.length = 12 ∧
    j1979_messages.map List.length = [5, 4, 4, 5, 5, 5, 5, 5, 12, 12, 12, 12] ∧
    ∀ m ∈ j1979_messages,
      4 ≤ m.length ∧ m.length ≤ 12 ∧ m.length ≤ obd2_message_size ∧
      ∀ i : Nat, i < m.length → i < obd2_message_size := by
  refine ⟨by decide, by decide, ?_⟩
  intro m hm
  have hlen : 4 ≤ m.length ∧ m.length ≤ 12 := by
    revert m
    decide
  refine ⟨hlen.1, hlen.2, hlen.2, ?_⟩
  intro i hi
  exact lt_of_lt_of_le hi hlen.2

/-- Witness for C4: the last index, 4, of the request `j1979_message_read_pid5`
is inside the message buffer. -/
theorem templates_fit_message_buffer_witness :
    j1979_message_read_pid5 ∈ j1979_messages ∧
    (4 : Nat) < j1979_message_read_pid5.length ∧
    4 ≤ j1979_message_read_pid5.length ∧
    j1979_message_read_pid5.length ≤ 12 ∧
    (4 : Nat) < obd2_message_size :=
  have hm : j1979_message_read_pid5 ∈ j1979_messages := by decide
  have hi : (4 : Nat) < j1979_message_read_pid5.length := by decide
  have h := templates_fit_message_buffer.2.2 j1979_message_read_pid5 hm
  ⟨hm, hi, h.1, h.2.1, h.2.2.2 4 hi⟩

/-- C5: the eight request templates are the first eight entries of
`j1979_messages`; each starts with the header 68 6A F1 and continues with the
service id and, when there is one, the PID its comment documents: 01 01
(number of DTCs), 03 (read DTCs), 04 (clear DTCs), 01 24, 01 28, 01 05, 01 11
and 01 0C (PID 1 to 5). The response template to the number-of-DTCs request
has 48 6B at bytes 0-1 and 41 01 at bytes 3-4. -/
theorem request_templates_wire_format :
    j1979_request_templates =
      [j1979_message_nbr_dtc, j1979_message_read_dtc, j1979_message_clear_dtc,
       j1979_message_read_pid1, j1979_message_read_pid2, j1979_message_read_pid3,
       j1979_message_read_pid4, j1979_message_read_pid5] ∧
    j1979_request_templates.map (List.take 3) = List.replicate 8 [0x68, 0x6A, 0xF1] ∧
    j1979_message_nbr_dtc = [0x68, 0x6A, 0xF1, 0x01, 0x01] ∧
    j1979_message_read_dtc = [0x68, 0x6A, 0xF1] ++ [0x03] ∧
    j1979_message_clear_dtc = [0x68, 0x6A, 0xF1] ++ [0x04] ∧
    j1979_message_read_pid1 = [0x68, 0x6A, 0xF1] ++ [0x01, 0x24] ∧
    j1979_message_read_pid2 = [0x68, 0x6A, 0xF1] ++ [0x01, 0x28] ∧
    j1979_message_read_pid3 = [0x68, 0x6A, 0xF1] ++ [0x01, 0x05] ∧
    j1979_message_read_pid4 = [0x68, 0x6A, 0xF1] ++ [0x01, 0x11] ∧
    j1979_message_read_pid5 = [0x68, 0x6A, 0xF1] ++ [0x01, 0x0C] ∧
    j1979_message_nbr_dtc_resp.take 2 = [0x48, 0x6B] ∧
    (j1979_message_nbr_dtc_resp.drop 3).take 2 = [0x41, 0x01] := by
  decide

/-- C6 fails on the tables. `LCD_STATE` has the two states `LCD_DTC4_STATE` and
`LCD_DTC5_STATE`, for which `menuitems` has no text, between `LCD_DTC3_STATE`
and `LCD_CLEAR_DTC_STATE`. Indexing `menuitems` by the state gives the text of
the state for `LCD_DTC_STATE` and `LCD_DTC1_STATE` .. `LCD_DTC3_STATE` only;
from `LCD_CLEAR_DTC_STATE` on the entry is two places off:
`menuitems[LCD_CLEAR_DTC_STATE]` is `lcd_menuitem_pid1`, not
`lcd_menuitem_cleardtc`. -/
theorem menuitems_order_mismatch :
    (menuitems_at LCD_DTC_STATE = some lcd_menuitem_dtc ∧
     menuitems_at LCD_DTC1_STATE = some lcd_menuitem_dtc1 ∧
     menuitems_at LCD_DTC2_STATE = some lcd_menuitem_dtc2 ∧
     menuitems_at LCD_DTC3_STATE = some lcd_menuitem_dtc3) ∧
    (menuitems_at LCD_DTC4_STATE = some lcd_menuitem_cleardtc ∧
     menuitems_at LCD_DTC5_STATE = some lcd_menuitem_pid) ∧
    (menuitems_at LCD_CLEAR_DTC_STATE = some lcd_menuitem_pid1 ∧
     menuitems_at LCD_PID_STATE = some lcd_menuitem_pid2 ∧
     menuitems_at LCD_PID1_STATE = some lcd_menuitem_pid3 ∧
     menuitems_at LCD_PID2_STATE = some lcd_menuitem_pid4 ∧
     menuitems_at LCD_PID3_STATE = some lcd_menuitem_pid5 ∧
     menuitems_at LCD_PID4_STATE = some lcd_menuitem_dtcs_cleared ∧
     menuitems_at LCD_PID5_STATE = some lcd_menuitem_error) ∧
    (menuitems_at LCD_CLEAR_DTC_STATE ≠ some lcd_menuitem_cleardtc ∧
     menuitems_at LCD_PID_STATE ≠ some lcd_menuitem_pid ∧
     menuitems_at LCD_PID1_STATE ≠ some lcd_menuitem_pid1 ∧
     menuitems_at LCD_PID2_STATE ≠ some lcd_menuitem_pid2 ∧
     menuitems_at LCD_PID3_STATE ≠ some lcd_menuitem_pid3 ∧
     menuitems_at LCD_PID4_STATE ≠ some lcd_menuitem_pid4 ∧
     menuitems_at LCD_PID5_STATE ≠ some lcd_menuitem_pid5) ∧
    (menuitems[5]? = some lcd_menuitem_cleardtc ∧
     LCD_CLEAR_DTC_STATE.toNat = 7 ∧ LCD_DTC4_STATE.toNat = 5) := by
  decide

/-- C10: the four response templates are the last four entries of
`j1979_messages`; each is exactly 12 bytes long and starts with 48 6B and a 00
placeholder for the ECU address, and the service id at byte 3 of each is the
service id at byte 3 of the request it answers plus 0x40: 01 -> 41 for the
number-of-DTCs request and for the five PID requests, 03 -> 43 for the read-DTC
request, 04 -> 44 for the clear-DTC request. -/
theorem response_templates_mirror_requests :
    j1979_response_templates =
      [j1979_message_nbr_dtc_resp, j1979_message_read_dtc_resp,
       j1979_message_clear_dtc_resp, j1979_message_read_pid_resp] ∧
    j1979_response_templates.map List.length = [12, 12, 12, 12] ∧
    j1979_response_templates.map (List.take 3) = List.replicate 4 [0x48, 0x6B, 0x00] ∧
    (j1979_message_nbr_dtc[3]? = some 0x01 ∧ j1979_message_nbr_dtc_resp[3]? = some 0x41 ∧
     j1979_message_nbr_dtc_resp[3]? = j1979_message_nbr_dtc[3]?.map (· + 0x40)) ∧
    (j1979_message_read_dtc[3]? = some 0x03 ∧ j1979_message_read_dtc_resp[3]? = some 0x43 ∧
     j1979_message_read_dtc_resp[3]? = j1979_message_read_dtc[3]?.map (· + 0x40)) ∧
    (j1979_message_clear_dtc[3]? = some 0x04 ∧
     j1979_message_clear_dtc_resp[3]? = some 0x44 ∧
     j1979_message_clear_dtc_resp[3]? = j1979_message_clear_dtc[3]?.map (· + 0x40)) ∧
    (j1979_message_read_pid_resp[3]? = some 0x41 ∧
     j1979_message_read_pid_resp[3]? = j1979_message_read_pid1[3]?.map (· + 0x40) ∧
     j1979_message_read_pid_resp[3]? = j1979_message_read_pid2[3]?.map (· + 0x40) ∧
     j1979_message_read_pid_resp[3]? = j1979_message_read_pid3[3]?.map (· + 0x40) ∧
     j1979_message_read_pid_resp[3]? = j1979_message_read_pid4[3]?.map (· + 0x40) ∧
     j1979_message_read_pid_resp[3]? = j1979_message_read_pid5[3]?.map (· + 0x40)) := by
  decide

end J1850
